import Mathlib

/-!
Shallow embedding of the CryptoAIAgent scoring core (src/utils.js, src/config.js,
src/devChecker.js, src/app.js, api/check-dev.js) and proofs about it.

JavaScript numbers are modelled as rationals (`ℚ`); possibly-missing fields as
`Option`.  The JS `x || d` defaulting idiom treats `0`, `null`, `undefined` and
`NaN` as falsy, so both `none` and `some 0` fall through to the default.
`Math.round x` is `⌊x + 1/2⌋` (round half toward +∞) for finite arguments.
-/

/-- JS defaulting `x || d` for a possibly-missing number: `null`/`undefined`
and `0` are falsy and give the default. -/
def jsOrQ (o : Option ℚ) (d : ℚ) : ℚ :=
  match o with
  | none => d
  | some x => if x = 0 then d else x

/-- JS defaulting `x || d` for a possibly-missing count. -/
def jsOrN (o : Option ℕ) (d : ℕ) : ℕ :=
  match o with
  | none => d
  | some x => if x = 0 then d else x

/-- JS `Math.round` on a finite number: round half toward positive infinity. -/
def jsRound (x : ℚ) : ℚ := ((⌊x + 1/2⌋ : ℤ) : ℚ)

/-- One trading-pair record as consumed by the scoring core (spec section 3).
`priceUsd` is the result of `parseFloat` on the decimal string (`none` when the
field is missing or unparsable); `socialsCount` is `info.socials.length` with
`0` for a missing list. -/
structure MarketPairSnapshot where
  chainId : String := ""
  priceUsd : Option ℚ := none
  marketCap : Option ℚ := none
  fdv : Option ℚ := none
  liquidityUsd : Option ℚ := none
  volumeH1 : Option ℚ := none
  volumeH6 : Option ℚ := none
  volumeH24 : Option ℚ := none
  priceChangeH1 : Option ℚ := none
  priceChangeH6 : Option ℚ := none
  priceChangeH24 : Option ℚ := none
  buysH24 : Option ℕ := none
  sellsH24 : Option ℕ := none
  pairCreatedAt : Option ℚ := none
  socialsCount : ℕ := 0
  deriving Repr, DecidableEq

/-- One risk category: a level string and a numeric score. -/
structure RiskItem where
  level : String
  score : ℚ
  deriving Repr, DecidableEq

/-- Output of `calculateRiskAnalysis` (src/utils.js lines 169-229). -/
structure RiskAssessment where
  rugPull : RiskItem
  liquidity : RiskItem
  holderConcentration : RiskItem
  volatility : RiskItem
  overall : RiskItem
  deriving Repr, DecidableEq

/-- CONFIG.RISK.LIQUIDITY_LOW (src/config.js line 41). -/
def LIQUIDITY_LOW : ℚ := 10000

/-- CONFIG.RISK.LIQUIDITY_MEDIUM (src/config.js line 42). -/
def LIQUIDITY_MEDIUM : ℚ := 100000

/-- Embedding of `calculateRiskAnalysis` (src/utils.js lines 169-229). -/
def calculateRiskAnalysis (tokenData : MarketPairSnapshot) : RiskAssessment :=
  let liquidity := jsOrQ tokenData.liquidityUsd 0
  let priceChange24h := |jsOrQ tokenData.priceChangeH24 0|
  let buys := jsOrN tokenData.buysH24 0
  let sells := jsOrN tokenData.sellsH24 0
  let liquidityRisk : RiskItem :=
    if liquidity < LIQUIDITY_LOW then ⟨"HIGH", 9⟩
    else if liquidity < LIQUIDITY_MEDIUM then ⟨"MEDIUM", 6⟩
    else ⟨"LOW", 2⟩
  let rugPullRisk : RiskItem :=
    if liquidity < LIQUIDITY_LOW then ⟨"HIGH", 8⟩
    else if liquidity < LIQUIDITY_MEDIUM then ⟨"MEDIUM", 5⟩
    else ⟨"LOW", 2⟩
  let volatilityRisk : RiskItem :=
    if priceChange24h > 50 then ⟨"HIGH", 9⟩
    else if priceChange24h > 20 then ⟨"MEDIUM", 6⟩
    else ⟨"LOW", 3⟩
  let totalTxns := buys + sells
  let holderRisk : RiskItem :=
    if totalTxns < 50 then ⟨"HIGH", 8⟩
    else if totalTxns < 200 then ⟨"MEDIUM", 5⟩
    else ⟨"LOW", 3⟩
  let overallScore := jsRound
    (rugPullRisk.score * (3/10) + liquidityRisk.score * (1/4) +
      holderRisk.score * (1/4) + volatilityRisk.score * (1/5))
  let overallRisk : RiskItem :=
    if overallScore ≥ 7 then ⟨"HIGH", overallScore⟩
    else if overallScore ≥ 4 then ⟨"MEDIUM", overallScore⟩
    else ⟨"LOW", overallScore⟩
  { rugPull := rugPullRisk
    liquidity := liquidityRisk
    holderConcentration := holderRisk
    volatility := volatilityRisk
    overall := overallRisk }

/-- Example 1 of the specification: liquidity $5,000, volume24h $2,000,
priceChange24h +80%, buys 10, sells 40. -/
def exampleSnapshot1 : MarketPairSnapshot :=
  { liquidityUsd := some 5000
    volumeH24 := some 2000
    priceChangeH24 := some 80
    buysH24 := some 10
    sellsH24 := some 40 }

/-- Left-pad a digit string with zeros to the given width. -/
def padZeros (width : ℕ) (s : String) : String :=
  String.mk (List.replicate (width - s.length) '0') ++ s

/-- JS `Number.prototype.toFixed` on a non-negative finite number: round to
`digits` decimal places, half away from zero. -/
def toFixedNN (x : ℚ) (digits : ℕ) : String :=
  let m := (⌊x * 10 ^ digits + 1/2⌋).toNat
  let ip := m / 10 ^ digits
  let fp := m % 10 ^ digits
  if digits = 0 then toString ip
  else toString ip ++ "." ++ padZeros digits (toString fp)

/-- JS `Number.prototype.toFixed`: format the magnitude, then the sign. -/
def toFixed (x : ℚ) (digits : ℕ) : String :=
  if x < 0 then "-" ++ toFixedNN (-x) digits else toFixedNN x digits

/-- Number of leading zeros after the decimal point of `q` (fuel-driven):
for `10 ^ -(k+1) ≤ q < 10 ^ -k` this is `k`, i.e. `-⌊log10 q⌋ - 1`. -/
def decZerosAux : ℕ → ℚ → ℕ
  | 0, _ => 0
  | fuel + 1, q => if 1 ≤ q * 10 then 0 else decZerosAux fuel (q * 10) + 1

/-- The `zeros` quantity of `formatPrice` (src/utils.js line 49) for a positive
price below 1: `-⌊log10 price⌋ - 1`.  The fuel bound suffices because a
positive rational is at least `1 / q.den`. -/
def decZeros (q : ℚ) : ℕ := decZerosAux (q.den.size + 4) q

/-- Embedding of `formatPrice` (src/utils.js lines 36-55).  `none` models a
`null`/`undefined` argument.  For an argument in `(0, 1/10000)` the source
computes `zeros = -Math.floor(Math.log10 price) - 1 ≥ 4` and takes the
scientific-notation branch.  At `0` the source evaluates `Math.log10 0 = -∞`,
hence `zeros = ∞`, `Math.pow(10, ∞) = ∞`, `0 * ∞ = NaN`, and the template
literal renders the string `$0.0\x7bInfinity\x7dNaN`.  For a negative
argument `Math.log10` is `NaN`, the `zeros >= 4` test is false, and the
final `toFixed(8)` branch is taken. -/
def formatPrice (price : Option ℚ) : String :=
  match price with
  | none => "N/A"
  | some p =>
    if p ≥ 1 then "$" ++ toFixed p 2
    else if p ≥ 1/100 then "$" ++ toFixed p 4
    else if p ≥ 1/10000 then "$" ++ toFixed p 6
    else if p = 0 then "$0.0\x7bInfinity\x7dNaN"
    else if p < 0 then "$" ++ toFixed p 8
    else
      let zeros := decZeros p
      let significand := p * 10 ^ (zeros + 4)
      "$0.0\x7b" ++ toString zeros ++ "\x7d" ++ toFixed significand 0

/-- Output of `analyzeSentiment` (src/utils.js lines 236-288).  The source
field `buySellRatio` (the ratio rendered with `toFixed(2)`) is named
`buySellRatioStr` here. -/
structure SentimentSnapshot where
  volumeTrend : String
  whaleActivity : String
  hypeLevel : String
  volatility : String
  trendDirection : String
  buySellRatioStr : String
  transactionCount : ℕ
  deriving Repr, DecidableEq

/-- Embedding of `analyzeSentiment` (src/utils.js lines 236-288).  The local
`volume6h` of the source is never used and is omitted.  When `volume24h` is
`0`, the source expression `(volume1h * 24) / volume24h` is `+∞` (strictly
positive numerator), `-∞` (strictly negative numerator) or `NaN` (zero
numerator); `+∞ > 1.5` holds, `-∞ < 0.5` holds, and `NaN` satisfies neither
comparison, which the first branch below reproduces. -/
def analyzeSentiment (tokenData : MarketPairSnapshot) : SentimentSnapshot :=
  let volume24h := jsOrQ tokenData.volumeH24 0
  let volume1h := jsOrQ tokenData.volumeH1 (volume24h / 24)
  let priceChange24h := jsOrQ tokenData.priceChangeH24 0
  let priceChange6h := jsOrQ tokenData.priceChangeH6 0
  let priceChange1h := jsOrQ tokenData.priceChangeH1 0
  let buys := jsOrN tokenData.buysH24 0
  let sells := jsOrN tokenData.sellsH24 0
  let volumeTrend :=
    if volume24h = 0 then
      if volume1h * 24 > 0 then "Increasing"
      else if volume1h * 24 < 0 then "Decreasing"
      else "Stable"
    else
      let recentVolumeRat := volume1h * 24 / volume24h
      if recentVolumeRat > 3/2 then "Increasing"
      else if recentVolumeRat < 1/2 then "Decreasing"
      else "Stable"
  let bsr : ℚ := if sells > 0 then (buys : ℚ) / (sells : ℚ) else (buys : ℚ)
  let whaleActivity :=
    if bsr > 2 then "Accumulation"
    else if bsr < 1/2 then "Distribution"
    else "Neutral"
  let totalTxns := buys + sells
  let hypeLevel :=
    if totalTxns > 1000 ∧ volume24h > 100000 then "High"
    else if totalTxns < 100 ∨ volume24h < 10000 then "Low"
    else "Medium"
  let maxChange := max |priceChange24h| (max (|priceChange6h| * 4) (|priceChange1h| * 24))
  let volatility :=
    if maxChange > 50 then "High"
    else if maxChange < 10 then "Low"
    else "Medium"
  let trendDirection :=
    if priceChange24h > 10 ∧ priceChange6h > 0 then "Bullish"
    else if priceChange24h < -10 ∧ priceChange6h < 0 then "Bearish"
    else "Neutral"
  { volumeTrend := volumeTrend
    whaleActivity := whaleActivity
    hypeLevel := hypeLevel
    volatility := volatility
    trendDirection := trendDirection
    buySellRatioStr := toFixed bsr 2
    transactionCount := totalTxns }

/-- A low/high range of one prediction scenario. -/
structure PredRange where
  low : ℚ
  high : ℚ
  deriving Repr, DecidableEq

/-- Price and market-cap ranges of one prediction scenario.  The constant
text fields of the source (`conditions`, `description`, `triggers`) carry no
computed data and are omitted. -/
structure ScenarioOutcome where
  priceRange : PredRange
  marketCapRange : PredRange
  deriving Repr, DecidableEq

/-- Output of `generatePredictions` (src/utils.js lines 295-358). -/
structure Predictions where
  bullish : ScenarioOutcome
  neutral : ScenarioOutcome
  bearish : ScenarioOutcome
  deriving Repr, DecidableEq

/-- Embedding of `generatePredictions` (src/utils.js lines 295-358).  The
source draws `Math.random()`; it is passed in here as `rand`.  The locals
`liquidityRatio` (unused in the source) and `neutralMultiplier` (computed
from `rand` but never applied) are reproduced as unused lets. -/
def generatePredictions (tokenData : MarketPairSnapshot) (rand : ℚ) : Predictions :=
  let currentPrice := jsOrQ tokenData.priceUsd 0
  let marketCap := jsOrQ tokenData.marketCap (jsOrQ tokenData.fdv 0)
  let liquidity := jsOrQ tokenData.liquidityUsd 0
  let volume24h := jsOrQ tokenData.volumeH24 0
  let _liquidityRat := liquidity / (if marketCap = 0 then 1 else marketCap)
  let volumeRat := volume24h / (if marketCap = 0 then 1 else marketCap)
  let bullishMultiplier := 2 + min (volumeRat * 10) 3
  let bullish : ScenarioOutcome :=
    { priceRange := ⟨currentPrice * (bullishMultiplier * (1/2)), currentPrice * bullishMultiplier⟩
      marketCapRange := ⟨marketCap * (bullishMultiplier * (1/2)), marketCap * bullishMultiplier⟩ }
  let _neutralMultiplier := 8/10 + rand * (4/10)
  let neutral : ScenarioOutcome :=
    { priceRange := ⟨currentPrice * (1/2), currentPrice * (3/2)⟩
      marketCapRange := ⟨marketCap * (1/2), marketCap * (3/2)⟩ }
  let bearish : ScenarioOutcome :=
    { priceRange := ⟨currentPrice * (1/20), currentPrice * (3/10)⟩
      marketCapRange := ⟨marketCap * (1/20), marketCap * (3/10)⟩ }
  { bullish := bullish, neutral := neutral, bearish := bearish }

/-- Output of `generateVerdict` (src/utils.js lines 367-412). -/
structure Verdict where
  strength : String
  suitableFor : List String
  summary : String
  riskScore : ℚ
  riskLevel : String
  deriving Repr, DecidableEq

/-- Embedding of `generateVerdict` (src/utils.js lines 367-412).  The locals
`volume24h` and `priceChange24h` of the source are read but never used and
are omitted. -/
def generateVerdict (tokenData : MarketPairSnapshot) (risks : RiskAssessment)
    (sentiment : SentimentSnapshot) : Verdict :=
  let liquidity := jsOrQ tokenData.liquidityUsd 0
  let base : String × List String × String :=
    if risks.overall.score ≤ 4 ∧ liquidity > 100000 then
      ("Strong", ["Mid-term holders", "Memecoin investors"],
        "This token shows relatively healthy metrics with adequate liquidity and trading activity. ")
    else if risks.overall.score ≥ 7 ∨ liquidity < 10000 then
      ("Weak", ["High-risk speculators only"],
        "This token carries significant risk factors. Low liquidity and/or concerning metrics suggest extreme caution. ")
    else
      ("Moderate", ["Short-term traders", "High-risk memecoin investors"],
        "This token shows mixed signals with moderate risk levels. ")
  let summary1 :=
    if sentiment.trendDirection = "Bullish" then
      base.2.2 ++ "Current momentum appears positive with buying pressure outweighing selling. "
    else if sentiment.trendDirection = "Bearish" then
      base.2.2 ++ "Current momentum shows selling pressure which may indicate profit-taking or declining interest. "
    else base.2.2
  let summary2 :=
    if sentiment.volumeTrend = "Increasing" then
      summary1 ++ "Volume is trending upward, suggesting growing interest."
    else if sentiment.volumeTrend = "Decreasing" then
      summary1 ++ "Volume is declining, which may impact price stability."
    else summary1
  { strength := base.1
    suitableFor := base.2.1
    summary := summary2
    riskScore := risks.overall.score
    riskLevel := risks.overall.level }

/-- Parsed dev-history counters (`total`, `rugged`, `successful`) as consumed
by `calculateTrustScore` (src/devChecker.js line 128). -/
structure DevStats where
  total : ℕ
  rugged : ℕ
  successful : ℕ
  deriving Repr, DecidableEq

/-- One coin record of the Pump.fun fallback response
(src/devChecker.js lines 256-263): `complete` flag and `market_cap`. -/
structure PumpCoin where
  complete : Bool
  marketCap : ℚ
  deriving Repr, DecidableEq

/-- Embedding of `DevChecker.fetchPumpFunFallback` (src/devChecker.js lines
243-274).  The oracle `pumpResp` stands for the network fetch: `.error` for a
thrown/rejected fetch, `.ok none` for a non-ok response or a non-array JSON
body, `.ok (some coins)` for a parsed coin array.  Every failure path of the
source returns all-zero stats. -/
def fetchPumpFunFallback (pumpResp : Except String (Option (List PumpCoin))) : DevStats :=
  match pumpResp with
  | .error _ => ⟨0, 0, 0⟩
  | .ok none => ⟨0, 0, 0⟩
  | .ok (some coins) =>
    { total := coins.length
      rugged := (coins.filter (fun c => !c.complete && decide (c.marketCap < 500))).length
      successful := (coins.filter (fun c => c.complete || decide (c.marketCap > 50000))).length }

/-- Embedding of `DevChecker.fetchHeliusDevHistory` (src/devChecker.js lines
209-237).  `heliusResp` is the `/api/check-dev` call: `.error` for a thrown
fetch or JSON parse, `.ok none` for a non-ok response status, `.ok (some s)`
for parsed counters.  Both failure shapes fall back to the Pump.fun lookup. -/
def fetchHeliusDevHistory (heliusResp : Except String (Option DevStats))
    (pumpResp : Except String (Option (List PumpCoin))) : DevStats :=
  match heliusResp with
  | .error _ => fetchPumpFunFallback pumpResp
  | .ok none => fetchPumpFunFallback pumpResp
  | .ok (some stats) => stats

/-- JS truthiness of a possibly-missing number (used for the
`pairData.pairCreatedAt` guard in src/devChecker.js line 153). -/
def jsTruthyQ (o : Option ℚ) : Bool :=
  match o with
  | none => false
  | some x => decide (x ≠ 0)

/-- The accumulated `score` delta of `DevChecker.calculateTrustScore`
(src/devChecker.js lines 115-169): liquidity, volume, pair age, socials and
dev-history adjustments summed from a 0 start.  `nowMs` stands for
`Date.now()`. -/
def devScoreDelta (pairData : Option MarketPairSnapshot) (nowMs : ℚ)
    (devStats : DevStats) : ℚ :=
  let liqDelta :=
    match pairData with
    | none => 0
    | some pd =>
      let liq := jsOrQ pd.liquidityUsd 0
      if liq > 50000 then 20 else if liq > 10000 then 10 else if liq < 1000 then -20 else 0
  let volDelta :=
    match pairData with
    | none => 0
    | some pd =>
      let vol := jsOrQ pd.volumeH24 0
      if vol > 100000 then 20 else if vol > 10000 then 10 else 0
  let ageDelta :=
    match pairData with
    | none => 0
    | some pd =>
      if jsTruthyQ pd.pairCreatedAt then
        let hoursOld := (nowMs - pd.pairCreatedAt.getD 0) / 3600000
        if hoursOld > 72 then 20 else if hoursOld > 24 then 10 else if hoursOld < 1 then -10 else 0
      else 0
  let socialsDelta :=
    match pairData with
    | none => 0
    | some pd => if pd.socialsCount > 0 then 20 else 0
  let historyDelta :=
    if devStats.total > 0 then
      (if devStats.rugged > 0 then -((devStats.rugged : ℚ) * 10) else 0) +
        (if devStats.successful > 0 then (devStats.successful : ℚ) * 5 else 0)
    else 0
  liqDelta + volDelta + ageDelta + socialsDelta + historyDelta

/-- The normalized `finalScore` of `DevChecker.calculateTrustScore`
(src/devChecker.js lines 172-173): baseline 40 plus the delta, clamped to
[0, 100]. -/
def devFinalScore (pairData : Option MarketPairSnapshot) (nowMs : ℚ)
    (devStats : DevStats) : ℚ :=
  min 100 (max 0 (40 + devScoreDelta pairData nowMs devStats))

/-- The badge text and color class of `DevChecker.calculateTrustScore`
(src/devChecker.js lines 176-188) as a function of the clamped final score. -/
def devBadge (finalScore : ℚ) : String × String :=
  if finalScore ≥ 80 then ("TRUSTED DEV 🟢", "positive")
  else if finalScore ≥ 50 then ("AVERAGE 🟡", "warning")
  else ("HIGH RISK 🔴", "negative")

/-- The scoring fields returned by `DevChecker.calculateTrustScore`
(src/devChecker.js lines 194-202).  The source's `rawAssets` passthrough is
display-only and omitted. -/
structure TrustAnalysis where
  badge : String
  badgeClass : String
  message : String
  otherTokens : String
  rugCount : String
  successRate : String
  deriving Repr, DecidableEq

/-- Embedding of `DevChecker.calculateTrustScore` (src/devChecker.js lines
114-203).  The dev-history fetch runs only when a creator address is known
and is itself wrapped in try/catch by the source; `fetchHeliusDevHistory`
never fails, so the catch arm is dead and the stats default to zero without
a creator. -/
def calculateTrustScore (creatorAddress : Option String)
    (heliusResp : Except String (Option DevStats))
    (pumpResp : Except String (Option (List PumpCoin)))
    (pairData : Option MarketPairSnapshot) (nowMs : ℚ) : TrustAnalysis :=
  let devStats :=
    match creatorAddress with
    | some _ => fetchHeliusDevHistory heliusResp pumpResp
    | none => ⟨0, 0, 0⟩
  let finalScore := devFinalScore pairData nowMs devStats
  let bb := devBadge finalScore
  { badge := bb.1
    badgeClass := bb.2
    message := "Trust Score: " ++ toString finalScore ++ "/100"
    otherTokens := if devStats.total > 0 then toString devStats.total ++ " Coins" else "0 Found"
    rugCount := if devStats.rugged > 0 then toString devStats.rugged ++ " Rugs ⚠️" else "0 Rugs ✅"
    successRate :=
      if devStats.total > 0 then
        toString (jsRound ((devStats.successful : ℚ) / (devStats.total : ℚ) * 100)) ++ "%"
      else "N/A" }

/-- Result object of `DevChecker.analyzeDevWallet`.  `status` is `none` for
the default analysis (whose source object carries no `status` field);
`deployerWallet`, `solscanLink` and `tokenLink` are likewise absent there. -/
structure DevAnalysis where
  status : Option String
  badge : String
  badgeClass : String
  message : String
  otherTokens : String
  rugCount : String
  successRate : String
  deployerWallet : Option String
  solscanLink : Option String
  tokenLink : Option String
  deriving Repr, DecidableEq

/-- Embedding of `DevChecker.getDefaultAnalysis` (src/devChecker.js lines
279-288).  An empty message string is falsy in JS and falls back to the
manual-verification text. -/
def getDefaultAnalysis (msg : String) : DevAnalysis :=
  { status := none
    badge := "VERIFY ⚠️"
    badgeClass := "warning"
    message := if msg = "" then "Check dev manually" else msg
    otherTokens := "Unknown"
    rugCount := "Unknown"
    successRate := "Unknown"
    deployerWallet := none
    solscanLink := none
    tokenLink := none }

/-- JS `try { body } catch (e) { handler }` over the exception monad. -/
def jsTry {ε α : Type} (body : Except ε α) (handler : ε → Except ε α) : Except ε α :=
  match body with
  | .ok a => .ok a
  | .error e => handler e

/-- Embedding of `DevChecker.analyzeDevWallet` (src/devChecker.js lines
59-108).  `cached` stands for the local-storage cache lookup; `metaResp`
models the Solscan token-meta step: `.error` when the fetch or JSON parse
throws, `.ok creator?` otherwise, where `creator?` is the extracted
`creator || mintAuthority || null` (a non-ok response yields `data = null`
and hence `.ok none`).  The cache write is a side effect outside the core
and is not modelled. -/
def analyzeDevWallet (tokenAddress : String) (chainId : String)
    (pairData : Option MarketPairSnapshot) (cached : Option DevAnalysis)
    (metaResp : Except String (Option String))
    (heliusResp : Except String (Option DevStats))
    (pumpResp : Except String (Option (List PumpCoin)))
    (nowMs : ℚ) : Except String DevAnalysis :=
  if chainId ≠ "solana" then .ok (getDefaultAnalysis "Only Solana Supported")
  else
    match cached with
    | some c => .ok c
    | none =>
      jsTry
        (do
          let creator ← metaResp
          let analysis := calculateTrustScore creator heliusResp pumpResp pairData nowMs
          pure
            { status := some "analyzed"
              badge := analysis.badge
              badgeClass := analysis.badgeClass
              message := analysis.message
              otherTokens := analysis.otherTokens
              rugCount := analysis.rugCount
              successRate := analysis.successRate
              deployerWallet := some (creator.getD "Unknown")
              solscanLink := some
                (match creator with
                 | some c => "https://solscan.io/account/" ++ c
                 | none => "https://solscan.io/token/" ++ tokenAddress)
              tokenLink := some ("https://solscan.io/token/" ++ tokenAddress) })
        (fun _ =>
          match pairData with
          | some _ =>
            let analysis := calculateTrustScore none heliusResp pumpResp pairData nowMs
            .ok
              { status := some "partial"
                badge := analysis.badge
                badgeClass := analysis.badgeClass
                message := analysis.message
                otherTokens := analysis.otherTokens
                rugCount := analysis.rugCount
                successRate := analysis.successRate
                deployerWallet := some "Unknown"
                solscanLink := some ("https://solscan.io/token/" ++ tokenAddress)
                tokenLink := none }
          | none => .ok (getDefaultAnalysis "API Error"))

/-- The serverless handler's clamp of the trust score
(src/unnamed/part_005 line 315). -/
def handlerClampScore (x : ℚ) : ℚ := max 0 (min 100 x)

/-- The serverless handler's risk-level bucketing
(src/unnamed/part_005 lines 317-324). -/
def handlerRiskLevel (trustScore : ℚ) : String :=
  if trustScore ≥ 70 then "LOW"
  else if trustScore ≥ 40 then "MEDIUM"
  else "DANGER"

/-- The serverless handler's raw trust score before clamping
(src/unnamed/part_005, steps 2-6): 100 minus the independent penalties for
mint authority (−50), freeze authority (−50), top-10 concentration above 30%
(−30), a deployer wallet younger than 24 hours (−40, only when a block time
was obtained), no successful past coin (−20, only when assets were listed),
and missing social links with a known mint (−10). -/
def handlerTrustScoreRaw (mintAuth freezeAuth : Bool) (top10Pct : ℚ)
    (walletHours : Option ℚ) (totalCreated successful : ℕ)
    (hasSocialLinks : Bool) (hasMintAddress : Bool) : ℚ :=
  100 - (if mintAuth then 50 else 0)
      - (if freezeAuth then 50 else 0)
      - (if top10Pct > 30 then 30 else 0)
      - (match walletHours with
         | some h => if h < 24 then 40 else 0
         | none => 0)
      - (if totalCreated > 0 ∧ successful = 0 then 20 else 0)
      - (if ¬hasSocialLinks ∧ hasMintAddress then 10 else 0)

/-- The `volumeScore` component of the momentum score
(src/app.js line 1182): `Math.min(30, Math.log10(volume24h + 1) * 5)`. -/
noncomputable def volumeScore (pair : MarketPairSnapshot) : ℝ :=
  min 30 (Real.logb 10 (((jsOrQ pair.volumeH24 0 : ℚ) : ℝ) + 1) * 5)

/-- The `txScore` component of the momentum score (src/app.js line 1183):
`Math.min(25, Math.log10(txns24h + 1) * 8)`. -/
noncomputable def txScore (pair : MarketPairSnapshot) : ℝ :=
  min 25 (Real.logb 10 (((jsOrN pair.buysH24 0 + jsOrN pair.sellsH24 0 : ℕ) : ℝ) + 1) * 8)

/-- The `buyPressureScore` component of the momentum score
(src/app.js line 1184). -/
def buyPressureScore (pair : MarketPairSnapshot) : ℚ :=
  if jsOrN pair.sellsH24 0 > 0 then
    min 25 (((jsOrN pair.buysH24 0 : ℚ) / (jsOrN pair.sellsH24 0 : ℚ)) * 10)
  else 15

/-- The `momentumScore` component of the momentum score
(src/app.js line 1185), named `momentumSubScore` to avoid clashing with the
total. -/
def momentumSubScore (pair : MarketPairSnapshot) : ℚ :=
  let priceChange := jsOrQ pair.priceChangeH24 0
  if priceChange > 0 then min 20 (priceChange * (1/2))
  else max (-10) (priceChange * (3/10))

/-- JS `Math.round` on a finite real. -/
noncomputable def jsRoundR (x : ℝ) : ℤ := ⌊x + 1/2⌋

/-- The `totalScore` of `renderMomentumScore` (src/app.js line 1187):
`Math.round(Math.max(0, Math.min(100, volumeScore + txScore +
buyPressureScore + momentumScore + 25)))`. -/
noncomputable def momentumTotalScore (pair : MarketPairSnapshot) : ℤ :=
  jsRoundR (max 0 (min 100
    (volumeScore pair + txScore pair + (buyPressureScore pair : ℝ) +
      (momentumSubScore pair : ℝ) + 25)))

/-- Snapshot used to probe the Strong-verdict liquidity boundary: liquidity
exactly $100,000, 150 buys and 150 sells (so the overall risk score is low). -/
def c2Snapshot : MarketPairSnapshot :=
  { liquidityUsd := some 100000
    buysH24 := some 150
    sellsH24 := some 150 }

/-- Snapshot comfortably inside the Strong verdict region: liquidity
$200,000, 150 buys and 150 sells. -/
def c2StrongSnapshot : MarketPairSnapshot :=
  { liquidityUsd := some 200000
    buysH24 := some 150
    sellsH24 := some 150 }

/-- Pair snapshot whose DevChecker sub-scores sum to a final trust score of
exactly 70: liquidity $60,000 (+20) and 24h volume $20,000 (+10) over the
40 baseline. -/
def devPairSnapshot : MarketPairSnapshot :=
  { liquidityUsd := some 60000
    volumeH24 := some 20000 }

/-- C1: for every MarketPairSnapshot, `calculateRiskAnalysis` returns an
overall score equal to `round(rugPull.score*0.30 + liquidity.score*0.25 +
holderConcentration.score*0.25 + volatility.score*0.20)`, re-bucketed into
level LOW when the rounded score is < 4, MEDIUM when it is 4-6 and HIGH when
it is ≥ 7; and the Example-1 snapshot (liquidity $5,000, priceChange24h
+80%, buys 10, sells 40) yields overall score 8 and level HIGH. -/
theorem riskAnalysis_overall_weighted_blend :
    (∀ t : MarketPairSnapshot,
      (calculateRiskAnalysis t).overall.score =
        jsRound ((calculateRiskAnalysis t).rugPull.score * (3/10) +
          (calculateRiskAnalysis t).liquidity.score * (1/4) +
          (calculateRiskAnalysis t).holderConcentration.score * (1/4) +
          (calculateRiskAnalysis t).volatility.score * (1/5)) ∧
      ((calculateRiskAnalysis t).overall.score < 4 →
        (calculateRiskAnalysis t).overall.level = "LOW") ∧
      (4 ≤ (calculateRiskAnalysis t).overall.score ∧ (calculateRiskAnalysis t).overall.score ≤ 6 →
        (calculateRiskAnalysis t).overall.level = "MEDIUM") ∧
      (7 ≤ (calculateRiskAnalysis t).overall.score →
        (calculateRiskAnalysis t).overall.level = "HIGH")) ∧
    (calculateRiskAnalysis exampleSnapshot1).overall = ⟨"HIGH", 8⟩ := by
  constructor
  · intro t
    simp only [calculateRiskAnalysis]
    split_ifs <;> norm_num [jsRound] at *
  · norm_num [calculateRiskAnalysis, exampleSnapshot1, jsOrQ, jsOrN, jsRound,
      LIQUIDITY_LOW, LIQUIDITY_MEDIUM]

/-- Witness for C1 at the Example-1 snapshot: its rounded overall score
reaches the HIGH bucket. -/
theorem riskAnalysis_overall_weighted_blend_witness :
    (calculateRiskAnalysis exampleSnapshot1).overall.level = "HIGH" :=
  (riskAnalysis_overall_weighted_blend.1 exampleSnapshot1).2.2.2
    (by norm_num [calculateRiskAnalysis, exampleSnapshot1, jsOrQ, jsOrN, jsRound,
      LIQUIDITY_LOW, LIQUIDITY_MEDIUM])

/-- C2 counterexample: at liquidity exactly $100,000 with overall risk score
≤ 4 the verdict is "Moderate", not "Strong" — the source compares the
liquidity with a strict `>`, so the claimed `≥ $100,000` Strong condition
fails on the boundary. -/
theorem generateVerdict_strict_liquidity_counterexample :
    (calculateRiskAnalysis c2Snapshot).overall.score ≤ 4 ∧
    jsOrQ c2Snapshot.liquidityUsd 0 = 100000 ∧
    (generateVerdict c2Snapshot (calculateRiskAnalysis c2Snapshot)
      (analyzeSentiment c2Snapshot)).strength = "Moderate" ∧
    "Moderate" ≠ "Strong" := by
  refine ⟨?_, ?_, ?_, by decide⟩ <;>
    norm_num [calculateRiskAnalysis, generateVerdict, analyzeSentiment, c2Snapshot,
      jsOrQ, jsOrN, jsRound, LIQUIDITY_LOW, LIQUIDITY_MEDIUM]

/-- C2 (amended): `generateVerdict` returns strength "Strong" exactly when
the overall risk score is ≤ 4 AND liquidity is strictly greater than
$100,000; otherwise "Weak" exactly when the overall risk score is ≥ 7 OR
liquidity is < $10,000; otherwise "Moderate" — the Strong condition is
evaluated before the Weak condition. -/
theorem generateVerdict_strength_characterization (t : MarketPairSnapshot)
    (risks : RiskAssessment) (sentiment : SentimentSnapshot) :
    ((generateVerdict t risks sentiment).strength = "Strong" ↔
      risks.overall.score ≤ 4 ∧ jsOrQ t.liquidityUsd 0 > 100000) ∧
    ((generateVerdict t risks sentiment).strength = "Weak" ↔
      ¬(risks.overall.score ≤ 4 ∧ jsOrQ t.liquidityUsd 0 > 100000) ∧
      (risks.overall.score ≥ 7 ∨ jsOrQ t.liquidityUsd 0 < 10000)) ∧
    ((generateVerdict t risks sentiment).strength = "Moderate" ↔
      ¬(risks.overall.score ≤ 4 ∧ jsOrQ t.liquidityUsd 0 > 100000) ∧
      ¬(risks.overall.score ≥ 7 ∨ jsOrQ t.liquidityUsd 0 < 10000)) := by
  simp only [generateVerdict]
  split_ifs with h1 h2 <;> refine ⟨?_, ?_, ?_⟩ <;> simp_all

/-- Witness for C2 (amended): a snapshot with liquidity $200,000 and a low
overall risk score is classified Strong. -/
theorem generateVerdict_strength_characterization_witness :
    (generateVerdict c2StrongSnapshot (calculateRiskAnalysis c2StrongSnapshot)
      (analyzeSentiment c2StrongSnapshot)).strength = "Strong" :=
  (generateVerdict_strength_characterization c2StrongSnapshot
      (calculateRiskAnalysis c2StrongSnapshot) (analyzeSentiment c2StrongSnapshot)).1.mpr
    ⟨by norm_num [calculateRiskAnalysis, c2StrongSnapshot, jsOrQ, jsOrN, jsRound,
        LIQUIDITY_LOW, LIQUIDITY_MEDIUM],
      by norm_num [c2StrongSnapshot, jsOrQ]⟩

/-- C3: `calculateRiskAnalysis` uses strict `<` liquidity thresholds —
liquidity exactly $10,000 gives liquidity risk MEDIUM(6), exactly $100,000
gives LOW(2), and a missing liquidity field is treated as $0, giving
liquidity risk HIGH(9) and rugPull risk HIGH(8). -/
theorem riskAnalysis_liquidity_boundaries :
    (∀ t : MarketPairSnapshot, t.liquidityUsd = some 10000 →
      (calculateRiskAnalysis t).liquidity = ⟨"MEDIUM", 6⟩) ∧
    (∀ t : MarketPairSnapshot, t.liquidityUsd = some 100000 →
      (calculateRiskAnalysis t).liquidity = ⟨"LOW", 2⟩) ∧
    (∀ t : MarketPairSnapshot, t.liquidityUsd = none →
      (calculateRiskAnalysis t).liquidity = ⟨"HIGH", 9⟩ ∧
      (calculateRiskAnalysis t).rugPull = ⟨"HIGH", 8⟩) := by
  refine ⟨fun t h => ?_, fun t h => ?_, fun t h => ?_⟩ <;>
    norm_num [calculateRiskAnalysis, jsOrQ, h, LIQUIDITY_LOW, LIQUIDITY_MEDIUM]

/-- Witness for C3: a snapshot whose only field is liquidity $10,000 lands
in the MEDIUM liquidity-risk bucket. -/
theorem riskAnalysis_liquidity_boundaries_witness :
    (calculateRiskAnalysis { liquidityUsd := some 10000 }).liquidity = ⟨"MEDIUM", 6⟩ :=
  riskAnalysis_liquidity_boundaries.1 { liquidityUsd := some 10000 } rfl

/-- C4: for every MarketPairSnapshot (with the non-negative 24h volume of
the data model), the momentum total score equals `round(clamp(volumeScore +
txScore + buyPressureScore + momentumScore + 25, 0, 100))` and is an
integer in [0, 100], including for zero/missing volume, zero transactions
and extreme price changes. -/
theorem momentumTotalScore_integer_range (pair : MarketPairSnapshot)
    (h : 0 ≤ jsOrQ pair.volumeH24 0) :
    momentumTotalScore pair =
      jsRoundR (max 0 (min 100 (volumeScore pair + txScore pair +
        (buyPressureScore pair : ℝ) + (momentumSubScore pair : ℝ) + 25))) ∧
    0 ≤ momentumTotalScore pair ∧ momentumTotalScore pair ≤ 100 := by
  refine ⟨rfl, ?_, ?_⟩ <;>
    set S : ℝ := volumeScore pair + txScore pair + (buyPressureScore pair : ℝ) +
      (momentumSubScore pair : ℝ) + 25 with hS
  · have h0 : (0:ℝ) ≤ max 0 (min 100 S) := le_max_left _ _
    exact Int.le_floor.mpr (by push_cast; linarith)
  · have h1 : max 0 (min 100 S) ≤ 100 := max_le (by norm_num) (min_le_left _ _)
    have h2 := Int.floor_le_iff (α := ℝ) (z := 100) (a := max 0 (min 100 S) + 1/2)
    exact h2.mpr (by push_cast; linarith)

/-- Witness for C4 at the all-defaults snapshot (zero volume, zero
transactions): the total momentum score lies in [0, 100]. -/
theorem momentumTotalScore_integer_range_witness :
    0 ≤ momentumTotalScore { } ∧ momentumTotalScore { } ≤ 100 :=
  (momentumTotalScore_integer_range { } (by norm_num [jsOrQ])).2

/-- C5: the sentiment `volumeTrend` is "Increasing" exactly when
`(volume1h * 24) / volume24h > 1.5`, "Decreasing" exactly when that ratio
is < 0.5 and "Stable" otherwise (stated for a non-zero denominator, where
the JS division is the rational one); a missing `volume.h1` defaults to
`volume24h / 24`; and in the 0/0 case (zero `volume24h` with a defaulted
`volume1h`) the result is "Stable" — the `NaN` ratio satisfies neither
comparison. -/
theorem volumeTrend_characterization (t : MarketPairSnapshot) :
    (t.volumeH1 = none →
      jsOrQ t.volumeH1 (jsOrQ t.volumeH24 0 / 24) = jsOrQ t.volumeH24 0 / 24) ∧
    (jsOrQ t.volumeH24 0 ≠ 0 →
      (((analyzeSentiment t).volumeTrend = "Increasing") ↔
        jsOrQ t.volumeH1 (jsOrQ t.volumeH24 0 / 24) * 24 / jsOrQ t.volumeH24 0 > 3/2) ∧
      (((analyzeSentiment t).volumeTrend = "Decreasing") ↔
        jsOrQ t.volumeH1 (jsOrQ t.volumeH24 0 / 24) * 24 / jsOrQ t.volumeH24 0 < 1/2) ∧
      (((analyzeSentiment t).volumeTrend = "Stable") ↔
        ¬(jsOrQ t.volumeH1 (jsOrQ t.volumeH24 0 / 24) * 24 / jsOrQ t.volumeH24 0 > 3/2) ∧
        ¬(jsOrQ t.volumeH1 (jsOrQ t.volumeH24 0 / 24) * 24 / jsOrQ t.volumeH24 0 < 1/2))) ∧
    (jsOrQ t.volumeH24 0 = 0 → jsOrQ t.volumeH1 (jsOrQ t.volumeH24 0 / 24) = 0 →
      (analyzeSentiment t).volumeTrend = "Stable") := by
  refine ⟨fun h => by simp [jsOrQ, h], fun h24 => ?_, fun h24 h1 => ?_⟩
  · simp only [analyzeSentiment, h24, if_false, if_neg h24]
    split_ifs <;> simp_all <;> linarith
  · simp only [analyzeSentiment, if_pos h24, h1]
    norm_num

/-- Witness for C5: with 24h volume 100 and 1h volume 10 the implied ratio
is 2.4 > 1.5, so the trend is reported Increasing. -/
theorem volumeTrend_characterization_witness :
    (analyzeSentiment { volumeH24 := some 100, volumeH1 := some 10 }).volumeTrend =
      "Increasing" :=
  ((volumeTrend_characterization { volumeH24 := some 100, volumeH1 := some 10 }).2.1
      (by norm_num [jsOrQ])).1.mpr (by norm_num [jsOrQ])

/-- C6 counterexample: a pair snapshot with liquidity $60,000 and 24h volume
$20,000 gives the client DevChecker a final trust score of exactly 70; the
serverless handler buckets 70 as risk level LOW, yet the badge at 70 is
"AVERAGE", not "TRUSTED DEV" — the badge thresholds are 80/50, not the
claimed 70/40, so LOW/TRUSTED do not pair up at a score of 70. -/
theorem devTrust_threshold_counterexample :
    devFinalScore (some devPairSnapshot) 0 ⟨0, 0, 0⟩ = 70 ∧
    handlerRiskLevel 70 = "LOW" ∧
    (devBadge (devFinalScore (some devPairSnapshot) 0 ⟨0, 0, 0⟩)).1 = "AVERAGE 🟡" ∧
    ("AVERAGE 🟡" : String) ≠ "TRUSTED DEV 🟢" := by
  have hs : devFinalScore (some devPairSnapshot) 0 ⟨0, 0, 0⟩ = 70 := by
    norm_num [devFinalScore, devScoreDelta, jsOrQ, jsTruthyQ, devPairSnapshot]
  refine ⟨hs, by norm_num [handlerRiskLevel], ?_, by decide⟩
  rw [hs]
  norm_num [devBadge]

/-- C6 (amended): both Developer Trust scores are clamped to [0, 100]; the
serverless handler buckets its risk level as LOW when the score is ≥ 70,
MEDIUM when ≥ 40 and DANGER otherwise; the client DevChecker awards the
badge TRUSTED DEV when its final score is ≥ 80, AVERAGE when ≥ 50 and
HIGH RISK otherwise; and the badge text and color class are a one-to-one
function of the badge bucket. -/
theorem devTrust_bucketing :
    (∀ x : ℚ, 0 ≤ handlerClampScore x ∧ handlerClampScore x ≤ 100) ∧
    (∀ ts : ℚ, (70 ≤ ts → handlerRiskLevel ts = "LOW") ∧
      (40 ≤ ts → ts < 70 → handlerRiskLevel ts = "MEDIUM") ∧
      (ts < 40 → handlerRiskLevel ts = "DANGER")) ∧
    (∀ (pd : Option MarketPairSnapshot) (now : ℚ) (st : DevStats),
      0 ≤ devFinalScore pd now st ∧ devFinalScore pd now st ≤ 100) ∧
    (∀ fs : ℚ, (80 ≤ fs → devBadge fs = ("TRUSTED DEV 🟢", "positive")) ∧
      (50 ≤ fs → fs < 80 → devBadge fs = ("AVERAGE 🟡", "warning")) ∧
      (fs < 50 → devBadge fs = ("HIGH RISK 🔴", "negative"))) ∧
    (∀ a b : ℚ, (devBadge a).1 = (devBadge b).1 ↔ (devBadge a).2 = (devBadge b).2) := by
  refine ⟨fun x => ⟨?_, ?_⟩, fun ts => ⟨fun h => ?_, fun h h' => ?_, fun h => ?_⟩,
    fun pd now st => ⟨?_, ?_⟩, fun fs => ⟨fun h => ?_, fun h h' => ?_, fun h => ?_⟩,
    fun a b => ?_⟩
  · exact le_max_left _ _
  · exact max_le (by norm_num) (min_le_left _ _)
  · simp only [handlerRiskLevel]; rw [if_pos (by linarith)]
  · simp only [handlerRiskLevel]; rw [if_neg (by linarith), if_pos (by linarith)]
  · simp only [handlerRiskLevel]; rw [if_neg (by linarith), if_neg (by linarith)]
  · exact le_min (by norm_num) (le_max_left _ _)
  · exact min_le_left _ _
  · simp only [devBadge]; rw [if_pos (by linarith)]
  · simp only [devBadge]; rw [if_neg (by linarith), if_pos (by linarith)]
  · simp only [devBadge]; rw [if_neg (by linarith), if_neg (by linarith)]
  · simp only [devBadge]; split_ifs <;> simp_all

/-- Witness for C6 (amended): a score of 85 is handler risk level LOW and
earns the TRUSTED DEV badge with the positive color class. -/
theorem devTrust_bucketing_witness :
    handlerRiskLevel 85 = "LOW" ∧ devBadge 85 = ("TRUSTED DEV 🟢", "positive") :=
  ⟨(devTrust_bucketing.2.1 85).1 (by norm_num),
    (devTrust_bucketing.2.2.2.1 85).1 (by norm_num)⟩

/-- C7: `analyzeDevWallet` never propagates an exception past its own
boundary — for every combination of cache state and oracle outcomes it
returns `.ok`: the wrapping default analysis when the chain is unsupported
("Only Solana Supported") or when the creator-resolution step throws with no
pair data available ("API Error"); a "partial" result computed from the pair
data alone (creator `none`) when the resolution throws but pair data is
available; the cached entry when one exists; and an "analyzed" result when
the resolution succeeds. -/
theorem analyzeDevWallet_never_throws (tokenAddress chainId : String)
    (pairData : Option MarketPairSnapshot) (cached : Option DevAnalysis)
    (metaResp : Except String (Option String))
    (heliusResp : Except String (Option DevStats))
    (pumpResp : Except String (Option (List PumpCoin))) (nowMs : ℚ) :
    (∃ a, analyzeDevWallet tokenAddress chainId pairData cached metaResp heliusResp
        pumpResp nowMs = .ok a) ∧
    (chainId ≠ "solana" →
      analyzeDevWallet tokenAddress chainId pairData cached metaResp heliusResp pumpResp nowMs =
        .ok (getDefaultAnalysis "Only Solana Supported")) ∧
    (∀ c, chainId = "solana" → cached = some c →
      analyzeDevWallet tokenAddress chainId pairData cached metaResp heliusResp pumpResp nowMs =
        .ok c) ∧
    (∀ e, chainId = "solana" → cached = none → metaResp = .error e → pairData = none →
      analyzeDevWallet tokenAddress chainId pairData cached metaResp heliusResp pumpResp nowMs =
        .ok (getDefaultAnalysis "API Error")) ∧
    (∀ e p, chainId = "solana" → cached = none → metaResp = .error e → pairData = some p →
      ∃ a, analyzeDevWallet tokenAddress chainId pairData cached metaResp heliusResp
          pumpResp nowMs = .ok a ∧
        a.status = some "partial" ∧
        a.badge = (calculateTrustScore none heliusResp pumpResp pairData nowMs).badge ∧
        a.badgeClass = (calculateTrustScore none heliusResp pumpResp pairData nowMs).badgeClass ∧
        a.deployerWallet = some "Unknown") ∧
    (∀ cr, chainId = "solana" → cached = none → metaResp = .ok cr →
      ∃ a, analyzeDevWallet tokenAddress chainId pairData cached metaResp heliusResp
          pumpResp nowMs = .ok a ∧
        a.status = some "analyzed") := by
  by_cases hc : chainId = "solana"
  · subst hc
    refine ⟨?_, fun h => absurd rfl h, fun c _ hcache => ?_, fun e _ hcache hm hp => ?_,
      fun e p _ hcache hm hp => ?_, fun cr _ hcache hm => ?_⟩
    · rcases cached with _ | c
      · rcases metaResp with e | cr
        · rcases pairData with _ | p <;> exact ⟨_, rfl⟩
        · exact ⟨_, rfl⟩
      · exact ⟨_, rfl⟩
    · subst hcache; rfl
    · subst hm hp hcache; rfl
    · subst hm hp hcache; exact ⟨_, rfl, rfl, rfl, rfl, rfl⟩
    · subst hm hcache; exact ⟨_, rfl, rfl⟩
  · refine ⟨⟨getDefaultAnalysis "Only Solana Supported", ?_⟩, fun _ => ?_,
      fun c h => absurd h hc, fun e h _ => absurd h hc, fun e p h _ => absurd h hc,
      fun cr h => absurd h hc⟩ <;> simp [analyzeDevWallet, hc]

/-- Witness for C7: on an unsupported chain the analysis is the wrapping
default result. -/
theorem analyzeDevWallet_never_throws_witness :
    analyzeDevWallet "tokenX" "base" none none (.ok none) (.ok none) (.ok none) 0 =
      .ok (getDefaultAnalysis "Only Solana Supported") :=
  (analyzeDevWallet_never_throws "tokenX" "base" none none (.ok none) (.ok none)
      (.ok none) 0).2.1 (by decide)

/-- C8: `formatPrice` of the price 0 — the parseFloat default when
`priceUsd` is missing — renders the string `$0.0{Infinity}NaN` (the braces
written here as hex escapes), which contains both "NaN" and "Infinity",
contradicting the requirement that no displayed value contain them;
`formatPrice` of `null`/`undefined` is "N/A", and an ordinary positive
price such as 0.5 formats cleanly. -/
theorem formatPrice_zero_renders_NaN :
    formatPrice (some 0) = "$0.0\x7bInfinity\x7dNaN" ∧
    formatPrice none = "N/A" ∧
    formatPrice (some (1/2)) = "$0.5000" := by
  refine ⟨?_, rfl, ?_⟩
  · norm_num [formatPrice]
  · norm_num [formatPrice, toFixed, toFixedNN, padZeros]
    rfl

/-- C9: the neutral prediction scenario is independent of the random jitter
— two calls of `generatePredictions` on the same snapshot with different
random draws return identical neutral ranges, and those ranges are exactly
[0.5 × currentPrice, 1.5 × currentPrice] and [0.5 × marketCap,
1.5 × marketCap]. -/
theorem generatePredictions_neutral_deterministic (t : MarketPairSnapshot) (r1 r2 : ℚ) :
    (generatePredictions t r1).neutral = (generatePredictions t r2).neutral ∧
    (generatePredictions t r1).neutral.priceRange =
      ⟨jsOrQ t.priceUsd 0 * (1/2), jsOrQ t.priceUsd 0 * (3/2)⟩ ∧
    (generatePredictions t r1).neutral.marketCapRange =
      ⟨jsOrQ t.marketCap (jsOrQ t.fdv 0) * (1/2), jsOrQ t.marketCap (jsOrQ t.fdv 0) * (3/2)⟩ :=
  ⟨rfl, rfl, rfl⟩

/-- C10: when both 24h transaction counts are 0 or missing (including the
fully empty snapshot), the buy/sell ratio defaults to `buys = 0`, which
satisfies the `< 0.5` Distribution test, so `analyzeSentiment` reports
whale activity "Distribution" rather than "Neutral". -/
theorem whaleActivity_empty_distribution (t : MarketPairSnapshot)
    (hb : t.buysH24 = none ∨ t.buysH24 = some 0)
    (hs : t.sellsH24 = none ∨ t.sellsH24 = some 0) :
    (analyzeSentiment t).whaleActivity = "Distribution" := by
  rcases hb with hb | hb <;> rcases hs with hs | hs <;>
    simp [analyzeSentiment, jsOrN, hb, hs]

/-- Witness for C10: the fully empty snapshot is classified as whale
distribution. -/
theorem whaleActivity_empty_distribution_witness :
    (analyzeSentiment { }).whaleActivity = "Distribution" :=
  whaleActivity_empty_distribution { } (Or.inl rfl) (Or.inl rfl)
